import Mathlib

/-!
# Scraper plugins of `collector`

A model of the three scrapers in `collector/innodb_cluster_primary.go`,
`collector/innodb_cluster_slave.go` and
`collector/perf_schema_replication_group_member.go`.

The database handle, the result cursor and the metric channel are the only
things a `Scrape` call touches.  They are modelled by explicit state passing:
a `World` records the metrics sent on the channel, the queries issued and the
number of `Close` calls, and every `Scrape` maps a `World` to an `Outcome` and
a new `World`.

The package constants `namespace`, `InnodbClusterSchema` and
`performanceSchema` are declared in files outside the three sources; they are
parameters here (`ns`, `InnodbClusterSchema`, `performanceSchema`).

Values read from the database are Go strings, that is arbitrary byte
sequences (`GoString`); the texts written in the sources are kept as `String`.
-/

namespace collector

/-! ## Client library: descriptors and constant metrics -/

/-- Go `error` values, identified by their message. -/
abbrev Error := String

/-- A Go `string` holding data: a sequence of bytes, not necessarily UTF-8. -/
abbrev GoString := List UInt8

/-- The two value kinds of `prometheus.ValueType` used by the scrapers. -/
inductive ValueType where
  | CounterValue
  | GaugeValue
  deriving DecidableEq

/-- The part of `prometheus.Desc` the scrapers set: fully qualified name, help
text, the ordered variable label names, and the error `NewDesc` stored in it. -/
structure Desc where
  fqName : String
  help : String
  variableLabels : List String
  err : Option Error
  deriving DecidableEq

/-- A constant metric as sent on the channel.  `value` is the `float64` carried
by the metric; every value produced by the scrapers is a non-negative integer,
so it is kept as the natural number it denotes. -/
structure Metric where
  desc : Desc
  valueType : ValueType
  value : Nat
  labelValues : List GoString
  deriving DecidableEq

/-- The function `prometheus.BuildFQName`: joins the non-empty parts with an
underscore, and gives the empty string when `name` is empty. -/
def BuildFQName (ns subsystem name : String) : String :=
  if name = "" then ""
  else if ns ≠ "" ∧ subsystem ≠ "" then ns ++ "_" ++ subsystem ++ "_" ++ name
  else if ns ≠ "" then ns ++ "_" ++ name
  else if subsystem ≠ "" then subsystem ++ "_" ++ name
  else name

/-- The function `model.IsValidMetricName`: a non-empty name of letters, digits,
`_` and `:` that does not start with a digit. -/
def IsValidMetricName (n : String) : Bool :=
  match n.data with
  | [] => false
  | c :: cs =>
    (c.isAlpha || c == '_' || c == ':')
      && cs.all (fun d => d.isAlphanum || d == '_' || d == ':')

/-- The function `checkLabelName`: a non-empty name of letters, digits and `_`
that does not start with a digit nor with the reserved prefix `__`. -/
def checkLabelName (l : String) : Bool :=
  (match l.data with
    | [] => false
    | c :: cs => (c.isAlpha || c == '_') && cs.all (fun d => d.isAlphanum || d == '_'))
  && !(l.data.take 2 == ['_', '_'])

/-- The function `prometheus.NewDesc`, with `nil` constant labels: the
descriptor carries an error when the name is not a valid metric name, when a
label name is not valid, or when a label name occurs twice. -/
def NewDesc (fqName help : String) (variableLabels : List String) : Desc :=
  { fqName := fqName
    help := help
    variableLabels := variableLabels
    err :=
      if !IsValidMetricName fqName then some "not a valid metric name"
      else if !variableLabels.all checkLabelName then some "not a valid label name"
      else if ¬ variableLabels.Nodup then some "duplicate label names"
      else none }

/-- One step of the UTF-8 scan.  The state is `none` once the bytes are known
to be ill-formed, and otherwise `some (need, lo, hi)`: `need` continuation
bytes are still expected, the next of them within `lo..hi`. -/
def utf8.step : Option (Nat × Nat × Nat) → UInt8 → Option (Nat × Nat × Nat)
  | none, _ => none
  | some (0, _, _), b =>
    let x := b.toNat
    if x < 0x80 then some (0, 0x80, 0xBF)
    else if 0xC2 ≤ x ∧ x ≤ 0xDF then some (1, 0x80, 0xBF)
    else if x = 0xE0 then some (2, 0xA0, 0xBF)
    else if (0xE1 ≤ x ∧ x ≤ 0xEC) ∨ x = 0xEE ∨ x = 0xEF then some (2, 0x80, 0xBF)
    else if x = 0xED then some (2, 0x80, 0x9F)
    else if x = 0xF0 then some (3, 0x90, 0xBF)
    else if 0xF1 ≤ x ∧ x ≤ 0xF3 then some (3, 0x80, 0xBF)
    else if x = 0xF4 then some (3, 0x80, 0x8F)
    else none
  | some (n + 1, lo, hi), b =>
    if lo ≤ b.toNat ∧ b.toNat ≤ hi then some (n, 0x80, 0xBF) else none

/-- The function `utf8.ValidString`: whether the bytes are well-formed UTF-8. -/
def utf8.ValidString (s : GoString) : Bool :=
  match s.foldl utf8.step (some (0, 0x80, 0xBF)) with
  | some (0, _, _) => true
  | _ => false

/-- Why `prometheus.MustNewConstMetric` panics. -/
inductive Panic where
  /-- the descriptor carries an error -/
  | descErr (err : Error)
  /-- the number of label values is not the number of variable labels -/
  | inconsistentCardinality
  /-- a label value is not valid UTF-8 -/
  | invalidUTF8 (val : GoString)
  deriving DecidableEq

/-- The function `prometheus.MustNewConstMetric`: it panics with the error of
`NewConstMetric`, which is the error of the descriptor if it has one, else an
inconsistent cardinality when the number of label values differs from the
number of variable labels, else the first label value that is not valid UTF-8;
otherwise the metric is built. -/
def MustNewConstMetric (desc : Desc) (valueType : ValueType) (value : Nat)
    (labelValues : List GoString) : Except Panic Metric :=
  match desc.err with
  | some err => Except.error (Panic.descErr err)
  | none =>
    if labelValues.length ≠ desc.variableLabels.length then
      Except.error Panic.inconsistentCardinality
    else
      match labelValues.find? (fun val => !utf8.ValidString val) with
      | some val => Except.error (Panic.invalidUTF8 val)
      | none =>
        Except.ok { desc := desc, valueType := valueType, value := value,
                    labelValues := labelValues }

/-- Number of binary digits of `n`, by halving at most `fuel` times. -/
def bitLength : Nat → Nat → Nat
  | 0, _ => 0
  | fuel + 1, n => if n = 0 then 0 else bitLength fuel (n / 2) + 1

/-- The Go conversion `float64(c)` of an unsigned integer: `c` is rounded to a
53-bit significand, to nearest with ties to even.  The result is an integer and
is given as a natural number. -/
def float64 (c : Nat) : Nat :=
  let drop := bitLength 64 c - 53
  let q := c / 2 ^ drop
  let r := c % 2 ^ drop
  if 2 * r > 2 ^ drop ∨ (2 * r = 2 ^ drop ∧ q % 2 = 1) then (q + 1) * 2 ^ drop
  else q * 2 ^ drop

/-! ## Database handle, result cursor and channel -/

/-- The `context.Context` handed to `Scrape`; the handle sees whether it is
already cancelled. -/
structure Context where
  cancelled : Bool
  deriving DecidableEq

/-- A result cursor (`*sql.Rows`) over rows scanned into `α`.

* `pending` holds, for each row the cursor will deliver, what `Scan` gives
  on it: the scanned destination values or the scan error;
* `Err` is the error, if any, that makes `Next` report `false` after the
  pending rows, as `rows.Err()` would give it;
* `closeErr` is the error, if any, returned by `Close`. -/
structure Rows (α : Type) where
  pending : List (Except Error α)
  Err : Option Error
  closeErr : Option Error

/-- A database handle (`*sql.DB`): the answer of `QueryContext` to a context
and a query text. -/
structure DB (α : Type) where
  QueryContext : Context → String → Except Error (Rows α)

/-- What a `Scrape` call can observe and change. -/
structure World where
  /-- metrics sent on `ch`, oldest first -/
  ch : List Metric
  /-- query texts passed to `QueryContext`, oldest first -/
  queries : List String
  /-- number of `Close` calls made on result cursors -/
  closes : Nat
  deriving DecidableEq

/-- How a `Scrape` call ends: it returns an `error` (`none` is `nil`), or it
panics. -/
inductive Outcome where
  | returned (err : Option Error)
  | panicked (p : Panic)
  deriving DecidableEq

/-- The row loop of the secondary-count and of the membership scraper,
`for rows.Next() { if err := rows.Scan(..); err != nil { return err }; ch <- mk .. }`
followed by `return nil`.  `Next` reports `false` when no row is pending, both
when the rows are exhausted and when the stream failed; the loop does not ask
which. -/
def forRows {α : Type} (mk : α → Except Panic Metric) :
    List (Except Error α) → World → Outcome × World
  | [], w => (Outcome.returned none, w)
  | Except.error err :: _, w => (Outcome.returned (some err), w)
  | Except.ok v :: rest, w =>
    match mk v with
    | Except.error p => (Outcome.panicked p, w)
    | Except.ok m => forRows mk rest { w with ch := w.ch ++ [m] }

/-- The deferred `rows.Close()`: it runs once when the function is left,
whatever the way, and its result is dropped. -/
def deferClose {α : Type} (_rows : Rows α) (r : Outcome × World) : Outcome × World :=
  (r.1, { r.2 with closes := r.2.closes + 1 })

/-! ## `innodb_cluster_primary.go` -/

def innodbClusterPrimaryQuery : String :=
  "\n\tSELECT COUNT(*) FROM performance_schema.replication_group_members WHERE \n\t\tmember_id = (SELECT variable_value FROM performance_schema.global_status WHERE variable_name = 'group_replication_primary_member') AND MEMBER_STATE = 'ONLINE';\n\t"

def InnodbClusterPrimaryDesc (ns InnodbClusterSchema : String) : Desc :=
  NewDesc (BuildFQName ns InnodbClusterSchema "primary") "display primary num" []

/-- Name of the scraper. -/
def ScrapeInnodbClusterPrimary.Name (InnodbClusterSchema : String) : String :=
  InnodbClusterSchema ++ ".primary"

/-- The row loop of the primary-count scraper (lines 67 to 76).  Rows are
fetched and scanned as in the other two scrapers.  What follows the scan reads
`ch <- prometheus.MustNewConstMetric(` /
`InnodbClusterPrimaryDesc, prometheus.CounterValue, float64(primaryCount)` /
`),` which is not a Go statement: there is no comma before the line break and
there is one after the closing parenthesis.  No send is there to run, so the
loop puts nothing on the channel. -/
def ScrapeInnodbClusterPrimary.rowLoop :
    List (Except Error Nat) → World → Outcome × World
  | [], w => (Outcome.returned none, w)
  | Except.error err :: _, w => (Outcome.returned (some err), w)
  | Except.ok _primaryCount :: rest, w => ScrapeInnodbClusterPrimary.rowLoop rest w

/-- Scrape of the primary-count plugin. -/
def ScrapeInnodbClusterPrimary.Scrape (_ns _InnodbClusterSchema : String)
    (ctx : Context) (db : DB Nat) (w : World) : Outcome × World :=
  let w1 := { w with queries := w.queries ++ [innodbClusterPrimaryQuery] }
  match db.QueryContext ctx innodbClusterPrimaryQuery with
  | Except.error err => (Outcome.returned (some err), w1)
  | Except.ok innodbClusterPrimaryRows =>
    deferClose innodbClusterPrimaryRows
      (ScrapeInnodbClusterPrimary.rowLoop innodbClusterPrimaryRows.pending w1)

/-! ## `innodb_cluster_slave.go` -/

def innodbClusterSlaveQuery : String :=
  "\n\tSELECT COUNT(*) FROM performance_schema.replication_group_members WHERE \n\t\tMEMBER_ROLE = \"SECONDARY\" AND MEMBER_STATE = 'ONLINE';\n\t"

def InnodbClusterSlaveDesc (ns InnodbClusterSchema : String) : Desc :=
  NewDesc (BuildFQName ns InnodbClusterSchema "slave") "display slave num" []

/-- Name of the scraper. -/
def ScrapeInnodbClusterSlave.Name (InnodbClusterSchema : String) : String :=
  InnodbClusterSchema ++ ".slave"

/-- Scrape of the secondary-count plugin. -/
def ScrapeInnodbClusterSlave.Scrape (ns InnodbClusterSchema : String)
    (ctx : Context) (db : DB Nat) (w : World) : Outcome × World :=
  let w1 := { w with queries := w.queries ++ [innodbClusterSlaveQuery] }
  match db.QueryContext ctx innodbClusterSlaveQuery with
  | Except.error err => (Outcome.returned (some err), w1)
  | Except.ok innodbClusterSlaveRows =>
    deferClose innodbClusterSlaveRows
      (forRows
        (fun slaveCount =>
          MustNewConstMetric (InnodbClusterSlaveDesc ns InnodbClusterSchema)
            ValueType.GaugeValue (float64 slaveCount) [])
        innodbClusterSlaveRows.pending w1)

/-! ## `perf_schema_replication_group_member.go` -/

def perfReplicationGroupMemeberQuery : String :=
  "\n\tSELECT MEMBER_ID, MEMBER_HOST, MEMBER_PORT, MEMBER_STATE, MEMBER_ROLE\n\t  FROM performance_schema.replication_group_members\n\t"

def performanceSchemaReplicationGroupMemberDesc (ns performanceSchema : String) : Desc :=
  NewDesc (BuildFQName ns performanceSchema "members") "mysql replication group members"
    ["member_id", "member_host", "member_port", "member_state", "member_role"]

/-- The five scan destinations of the membership query, in column order. -/
structure MemberRow where
  memberId : GoString
  memberHost : GoString
  memberPort : GoString
  memberState : GoString
  memberRole : GoString
  deriving DecidableEq

/-- Name of the scraper. -/
def ScrapePerfReplicationGroupMember.Name (performanceSchema : String) : String :=
  performanceSchema ++ ".replication_group_member"

/-- Scrape of the membership plugin. -/
def ScrapePerfReplicationGroupMember.Scrape (ns performanceSchema : String)
    (ctx : Context) (db : DB MemberRow) (w : World) : Outcome × World :=
  let w1 := { w with queries := w.queries ++ [perfReplicationGroupMemeberQuery] }
  match db.QueryContext ctx perfReplicationGroupMemeberQuery with
  | Except.error err => (Outcome.returned (some err), w1)
  | Except.ok perfReplicationGroupMemeberRows =>
    deferClose perfReplicationGroupMemeberRows
      (forRows
        (fun row =>
          MustNewConstMetric (performanceSchemaReplicationGroupMemberDesc ns performanceSchema)
            ValueType.GaugeValue 1
            [row.memberId, row.memberHost, row.memberPort, row.memberState, row.memberRole])
        perfReplicationGroupMemeberRows.pending w1)

/-! ## Auxiliary notions for the statements -/

/-- The error of the first pending row whose scan fails, if there is one. -/
def firstErr {α : Type} : List (Except Error α) → Option Error
  | [] => none
  | Except.error err :: _ => some err
  | Except.ok _ :: rest => firstErr rest

/-- The scanned values of the pending rows that come before the first failing
scan, in row order. -/
def scanned {α : Type} : List (Except Error α) → List α
  | [] => []
  | Except.error _ :: _ => []
  | Except.ok v :: rest => v :: scanned rest

/-- A handle that answers every query with `r`. -/
def constDB {α : Type} (r : Except Error (Rows α)) : DB α :=
  { QueryContext := fun _ _ => r }

/-- A world in which nothing has happened yet. -/
def World.empty : World :=
  { ch := [], queries := [], closes := 0 }

/-- The bytes of a text made of ASCII characters. -/
def ascii (s : String) : GoString :=
  s.data.map (fun c => UInt8.ofNat c.toNat)

/-- Whether the five strings of a scanned row are all valid UTF-8. -/
def MemberRow.validUTF8 (row : MemberRow) : Bool :=
  utf8.ValidString row.memberId && utf8.ValidString row.memberHost
    && utf8.ValidString row.memberPort && utf8.ValidString row.memberState
    && utf8.ValidString row.memberRole

/-- The sample the secondary-count plugin builds from a scanned count. -/
def slaveSample (ns InnodbClusterSchema : String) (slaveCount : Nat) : Metric :=
  { desc := InnodbClusterSlaveDesc ns InnodbClusterSchema
    valueType := ValueType.GaugeValue
    value := float64 slaveCount
    labelValues := [] }

/-- The sample the membership plugin builds from a scanned row. -/
def memberSample (ns performanceSchema : String) (row : MemberRow) : Metric :=
  { desc := performanceSchemaReplicationGroupMemberDesc ns performanceSchema
    valueType := ValueType.GaugeValue
    value := 1
    labelValues := [row.memberId, row.memberHost, row.memberPort, row.memberState,
      row.memberRole] }

/-! ## Sample construction -/

theorem MustNewConstMetric_ok (desc : Desc) (valueType : ValueType) (value : Nat)
    (labelValues : List GoString) (hd : desc.err = none)
    (hl : labelValues.length = desc.variableLabels.length)
    (hu : ∀ val ∈ labelValues, utf8.ValidString val = true) :
    MustNewConstMetric desc valueType value labelValues
      = Except.ok { desc := desc, valueType := valueType, value := value,
                    labelValues := labelValues } := by
  have hf : labelValues.find? (fun val => !utf8.ValidString val) = none := by
    rw [List.find?_eq_none]
    intro val hval
    simp [hu val hval]
  simp [MustNewConstMetric, hd, hl, hf]

theorem MustNewConstMetric_ok_inv (desc : Desc) (valueType : ValueType) (value : Nat)
    (labelValues : List GoString) (m : Metric)
    (h : MustNewConstMetric desc valueType value labelValues = Except.ok m) :
    m.desc = desc ∧ m.labelValues = labelValues
      ∧ labelValues.length = desc.variableLabels.length := by
  unfold MustNewConstMetric at h
  split at h
  · exact absurd h (by simp)
  · split at h
    · exact absurd h (by simp)
    · rename_i hl
      split at h
      · exact absurd h (by simp)
      · injection h with h
        subst h
        exact ⟨rfl, rfl, not_not.mp hl⟩

theorem MustNewConstMetric_cardinality (desc : Desc) (valueType : ValueType) (value : Nat)
    (labelValues : List GoString)
    (hl : labelValues.length = desc.variableLabels.length) :
    MustNewConstMetric desc valueType value labelValues
      ≠ Except.error Panic.inconsistentCardinality := by
  unfold MustNewConstMetric
  split
  · simp
  · split
    · rename_i hne
      exact absurd hl hne
    · split <;> simp

theorem slave_mk (ns InnodbClusterSchema : String) (slaveCount : Nat)
    (hd : (InnodbClusterSlaveDesc ns InnodbClusterSchema).err = none) :
    MustNewConstMetric (InnodbClusterSlaveDesc ns InnodbClusterSchema)
      ValueType.GaugeValue (float64 slaveCount) []
      = Except.ok (slaveSample ns InnodbClusterSchema slaveCount) :=
  MustNewConstMetric_ok _ _ _ _ hd rfl (by simp)

theorem member_mk (ns performanceSchema : String) (row : MemberRow)
    (hd : (performanceSchemaReplicationGroupMemberDesc ns performanceSchema).err = none)
    (hu : row.validUTF8 = true) :
    MustNewConstMetric (performanceSchemaReplicationGroupMemberDesc ns performanceSchema)
      ValueType.GaugeValue 1
      [row.memberId, row.memberHost, row.memberPort, row.memberState, row.memberRole]
      = Except.ok (memberSample ns performanceSchema row) := by
  simp only [MemberRow.validUTF8, Bool.and_eq_true] at hu
  obtain ⟨⟨⟨⟨h1, h2⟩, h3⟩, h4⟩, h5⟩ := hu
  exact MustNewConstMetric_ok _ _ _ _ hd rfl (by simp [h1, h2, h3, h4, h5])

/-! ## The row loops -/

theorem firstErr_map_ok {α : Type} (vs : List α) :
    firstErr (vs.map (Except.ok : α → Except Error α)) = none := by
  induction vs with
  | nil => rfl
  | cons v vs ih => simpa [firstErr] using ih

theorem scanned_map_ok {α : Type} (vs : List α) :
    scanned (vs.map (Except.ok : α → Except Error α)) = vs := by
  induction vs with
  | nil => rfl
  | cons v vs ih => simpa [scanned] using ih

theorem firstErr_map_ok_append {α : Type} (vs : List α) (err : Error)
    (rest : List (Except Error α)) :
    firstErr (vs.map (Except.ok : α → Except Error α) ++ Except.error err :: rest)
      = some err := by
  induction vs with
  | nil => rfl
  | cons v vs ih => simpa [firstErr] using ih

theorem scanned_map_ok_append {α : Type} (vs : List α) (err : Error)
    (rest : List (Except Error α)) :
    scanned (vs.map (Except.ok : α → Except Error α) ++ Except.error err :: rest)
      = vs := by
  induction vs with
  | nil => rfl
  | cons v vs ih => simpa [scanned] using ih

/-- When the sample constructor does not panic on the rows scanned before the
first failing scan, the loop sends their samples and returns that scan's error,
or `nil`. -/
theorem forRows_eq {α : Type} (mk : α → Except Panic Metric) (f : α → Metric)
    (rs : List (Except Error α)) (w : World)
    (hmk : ∀ v ∈ scanned rs, mk v = Except.ok (f v)) :
    forRows mk rs w
      = (Outcome.returned (firstErr rs), { w with ch := w.ch ++ (scanned rs).map f }) := by
  induction rs generalizing w with
  | nil => simp [forRows, firstErr, scanned]
  | cons r rs ih =>
    cases r with
    | error err => simp [forRows, firstErr, scanned]
    | ok v =>
      have hv : mk v = Except.ok (f v) := hmk v (by simp [scanned])
      have hrest : ∀ u ∈ scanned rs, mk u = Except.ok (f u) :=
        fun u hu => hmk u (by simp [scanned, hu])
      simp [forRows, firstErr, scanned, hv, ih _ hrest]

/-- The loop touches neither the record of queries nor the count of closes. -/
theorem forRows_frame {α : Type} (mk : α → Except Panic Metric)
    (rs : List (Except Error α)) (w : World) :
    (forRows mk rs w).2.queries = w.queries ∧ (forRows mk rs w).2.closes = w.closes := by
  induction rs generalizing w with
  | nil => simp [forRows]
  | cons r rs ih =>
    cases r with
    | error err => simp [forRows]
    | ok v =>
      cases hv : mk v with
      | error p => simp [forRows, hv]
      | ok m => simpa [forRows, hv] using ih { w with ch := w.ch ++ [m] }

/-- Every metric on the channel after the loop was there before or was built by
the sample constructor. -/
theorem forRows_ch {α : Type} (mk : α → Except Panic Metric)
    (rs : List (Except Error α)) (w : World) :
    ∀ m ∈ (forRows mk rs w).2.ch, m ∈ w.ch ∨ ∃ v, mk v = Except.ok m := by
  induction rs generalizing w with
  | nil => intro m hm; exact Or.inl (by simpa [forRows] using hm)
  | cons r rs ih =>
    cases r with
    | error err => intro m hm; exact Or.inl (by simpa [forRows] using hm)
    | ok v =>
      cases hv : mk v with
      | error p => intro m hm; exact Or.inl (by simpa [forRows, hv] using hm)
      | ok m0 =>
        intro m hm
        have hm2 : m ∈ (forRows mk rs { w with ch := w.ch ++ [m0] }).2.ch := by
          simpa [forRows, hv] using hm
        rcases ih _ m hm2 with h | h
        · rcases List.mem_append.mp h with h1 | h1
          · exact Or.inl h1
          · have : m = m0 := by simpa using h1
            exact Or.inr ⟨v, this ▸ hv⟩
        · exact Or.inr h

/-- A panic of the loop is a panic of the sample constructor. -/
theorem forRows_panic {α : Type} (mk : α → Except Panic Metric)
    (rs : List (Except Error α)) (w : World) (p : Panic)
    (h : (forRows mk rs w).1 = Outcome.panicked p) : ∃ v, mk v = Except.error p := by
  induction rs generalizing w with
  | nil => simp [forRows] at h
  | cons r rs ih =>
    cases r with
    | error err => simp [forRows] at h
    | ok v =>
      cases hv : mk v with
      | error q =>
        have : q = p := by simpa [forRows, hv] using h
        exact ⟨v, this ▸ hv⟩
      | ok m => exact ih { w with ch := w.ch ++ [m] } (by simpa [forRows, hv] using h)

theorem rowLoop_eq (rs : List (Except Error Nat)) (w : World) :
    ScrapeInnodbClusterPrimary.rowLoop rs w = (Outcome.returned (firstErr rs), w) := by
  induction rs with
  | nil => rfl
  | cons r rs ih =>
    cases r with
    | error err => rfl
    | ok v => simpa [ScrapeInnodbClusterPrimary.rowLoop, firstErr] using ih

/-! ## What each `Scrape` does -/

theorem primary_scrape_error (ns InnodbClusterSchema : String) (ctx : Context) (db : DB Nat)
    (w : World) (err : Error)
    (hq : db.QueryContext ctx innodbClusterPrimaryQuery = Except.error err) :
    ScrapeInnodbClusterPrimary.Scrape ns InnodbClusterSchema ctx db w
      = (Outcome.returned (some err),
          { w with queries := w.queries ++ [innodbClusterPrimaryQuery] }) := by
  simp [ScrapeInnodbClusterPrimary.Scrape, hq]

theorem primary_scrape_ok (ns InnodbClusterSchema : String) (ctx : Context) (db : DB Nat)
    (w : World) (rows : Rows Nat)
    (hq : db.QueryContext ctx innodbClusterPrimaryQuery = Except.ok rows) :
    ScrapeInnodbClusterPrimary.Scrape ns InnodbClusterSchema ctx db w
      = (Outcome.returned (firstErr rows.pending),
          { ch := w.ch
            queries := w.queries ++ [innodbClusterPrimaryQuery]
            closes := w.closes + 1 }) := by
  simp [ScrapeInnodbClusterPrimary.Scrape, hq, deferClose, rowLoop_eq]

theorem slave_scrape_error (ns InnodbClusterSchema : String) (ctx : Context) (db : DB Nat)
    (w : World) (err : Error)
    (hq : db.QueryContext ctx innodbClusterSlaveQuery = Except.error err) :
    ScrapeInnodbClusterSlave.Scrape ns InnodbClusterSchema ctx db w
      = (Outcome.returned (some err),
          { w with queries := w.queries ++ [innodbClusterSlaveQuery] }) := by
  simp [ScrapeInnodbClusterSlave.Scrape, hq]

theorem slave_scrape_ok (ns InnodbClusterSchema : String) (ctx : Context) (db : DB Nat)
    (w : World) (rows : Rows Nat)
    (hd : (InnodbClusterSlaveDesc ns InnodbClusterSchema).err = none)
    (hq : db.QueryContext ctx innodbClusterSlaveQuery = Except.ok rows) :
    ScrapeInnodbClusterSlave.Scrape ns InnodbClusterSchema ctx db w
      = (Outcome.returned (firstErr rows.pending),
          { ch := w.ch ++ (scanned rows.pending).map (slaveSample ns InnodbClusterSchema)
            queries := w.queries ++ [innodbClusterSlaveQuery]
            closes := w.closes + 1 }) := by
  simp [ScrapeInnodbClusterSlave.Scrape, hq, deferClose,
    forRows_eq _ (slaveSample ns InnodbClusterSchema) _ _
      (fun v _ => slave_mk ns InnodbClusterSchema v hd)]

theorem member_scrape_error (ns performanceSchema : String) (ctx : Context)
    (db : DB MemberRow) (w : World) (err : Error)
    (hq : db.QueryContext ctx perfReplicationGroupMemeberQuery = Except.error err) :
    ScrapePerfReplicationGroupMember.Scrape ns performanceSchema ctx db w
      = (Outcome.returned (some err),
          { w with queries := w.queries ++ [perfReplicationGroupMemeberQuery] }) := by
  simp [ScrapePerfReplicationGroupMember.Scrape, hq]

theorem member_scrape_ok (ns performanceSchema : String) (ctx : Context)
    (db : DB MemberRow) (w : World) (rows : Rows MemberRow)
    (hd : (performanceSchemaReplicationGroupMemberDesc ns performanceSchema).err = none)
    (hu : ∀ row ∈ scanned rows.pending, row.validUTF8 = true)
    (hq : db.QueryContext ctx perfReplicationGroupMemeberQuery = Except.ok rows) :
    ScrapePerfReplicationGroupMember.Scrape ns performanceSchema ctx db w
      = (Outcome.returned (firstErr rows.pending),
          { ch := w.ch ++ (scanned rows.pending).map (memberSample ns performanceSchema)
            queries := w.queries ++ [perfReplicationGroupMemeberQuery]
            closes := w.closes + 1 }) := by
  simp [ScrapePerfReplicationGroupMember.Scrape, hq, deferClose,
    forRows_eq _ (memberSample ns performanceSchema) _ _
      (fun row hrow => member_mk ns performanceSchema row hd (hu row hrow))]

/-! ## Conversion to `float64` -/

theorem bitLength_le (fuel n k : Nat) (h : n < 2 ^ k) : bitLength fuel n ≤ k := by
  induction fuel generalizing n k with
  | zero => simp [bitLength]
  | succ fuel ih =>
    unfold bitLength
    split
    · exact Nat.zero_le k
    · rename_i hn
      cases k with
      | zero => simp at h; exact absurd h hn
      | succ k =>
        have h2 : n / 2 < 2 ^ k := by
          rw [Nat.div_lt_iff_lt_mul (by decide : 0 < 2)]
          rw [pow_succ] at h
          exact h
        exact Nat.succ_le_succ (ih (n / 2) k h2)

theorem float64_exact (c : Nat) (h : c ≤ 2 ^ 53) : float64 c = c := by
  rcases Nat.lt_or_eq_of_le h with hlt | heq
  · have hd : bitLength 64 c - 53 = 0 := Nat.sub_eq_zero_of_le (bitLength_le 64 c 53 hlt)
    simp [float64, hd, Nat.mod_one]
  · subst heq
    decide

theorem float64_two_pow_53_add_one : float64 (2 ^ 53 + 1) = 2 ^ 53 := by decide

theorem float64_two_pow_53_add_three : float64 (2 ^ 53 + 3) = 2 ^ 53 + 4 := by decide

theorem float64_max_uint64 : float64 (2 ^ 64 - 1) = 2 ^ 64 := by decide

/-- For every unsigned 64-bit count, one row scanning to it makes the
secondary-count scraper send exactly one gauge without label values whose value
is the count converted to `float64`, the count itself up to `2 ^ 53`. -/
theorem slave_scrape_one_row (ns InnodbClusterSchema : String) (ctx : Context)
    (db : DB Nat) (w : World) (c : Nat) (eS cS : Option Error) (_hc : c < 2 ^ 64)
    (hd : (InnodbClusterSlaveDesc ns InnodbClusterSchema).err = none)
    (hS : db.QueryContext ctx innodbClusterSlaveQuery
      = Except.ok { pending := [Except.ok c], Err := eS, closeErr := cS }) :
    (ScrapeInnodbClusterSlave.Scrape ns InnodbClusterSchema ctx db w).2.ch
      = w.ch ++ [{ desc := InnodbClusterSlaveDesc ns InnodbClusterSchema
                   valueType := ValueType.GaugeValue
                   value := float64 c
                   labelValues := [] }]
    ∧ (c ≤ 2 ^ 53 → float64 c = c) := by
  rw [slave_scrape_ok ns InnodbClusterSchema ctx db w _ hd hS]
  exact ⟨rfl, float64_exact c⟩

/-! ## Names -/

theorem append_ne_of_last_ne (a b : String) (s t : List Char) (x y : Char) (hxy : x ≠ y) :
    a ++ String.mk (s ++ [x]) ≠ b ++ String.mk (t ++ [y]) := by
  intro h
  have hd := congrArg String.data h
  simp only [String.data_append] at hd
  have hr := congrArg List.reverse hd
  simp only [List.reverse_append, List.reverse_cons, List.reverse_nil, List.nil_append,
    List.singleton_append, List.cons_append] at hr
  exact hxy (List.cons.inj hr).1

/-! ## Claims -/

/-- C1: for each of the three plugins, when the query succeeds and the result
stream delivers zero rows, `Scrape` returns `nil` and sends nothing on the
channel. -/
theorem scrape_zero_rows (ns InnodbClusterSchema performanceSchema : String) (ctx : Context)
    (db : DB Nat) (dbM : DB MemberRow) (w : World) (eP cP eS cS eM cM : Option Error)
    (hP : db.QueryContext ctx innodbClusterPrimaryQuery
      = Except.ok { pending := [], Err := eP, closeErr := cP })
    (hS : db.QueryContext ctx innodbClusterSlaveQuery
      = Except.ok { pending := [], Err := eS, closeErr := cS })
    (hM : dbM.QueryContext ctx perfReplicationGroupMemeberQuery
      = Except.ok { pending := [], Err := eM, closeErr := cM }) :
    ((ScrapeInnodbClusterPrimary.Scrape ns InnodbClusterSchema ctx db w).1
        = Outcome.returned none
      ∧ (ScrapeInnodbClusterPrimary.Scrape ns InnodbClusterSchema ctx db w).2.ch = w.ch)
    ∧ ((ScrapeInnodbClusterSlave.Scrape ns InnodbClusterSchema ctx db w).1
        = Outcome.returned none
      ∧ (ScrapeInnodbClusterSlave.Scrape ns InnodbClusterSchema ctx db w).2.ch = w.ch)
    ∧ ((ScrapePerfReplicationGroupMember.Scrape ns performanceSchema ctx dbM w).1
        = Outcome.returned none
      ∧ (ScrapePerfReplicationGroupMember.Scrape ns performanceSchema ctx dbM w).2.ch
        = w.ch) := by
  refine ⟨?_, ?_, ?_⟩
  · rw [primary_scrape_ok ns InnodbClusterSchema ctx db w _ hP]
    exact ⟨rfl, rfl⟩
  · simp [ScrapeInnodbClusterSlave.Scrape, hS, forRows, deferClose]
  · simp [ScrapePerfReplicationGroupMember.Scrape, hM, forRows, deferClose]

theorem scrape_zero_rows_witness :
    ((ScrapeInnodbClusterPrimary.Scrape "mysql" "innodb_cluster" (Context.mk false)
          (constDB (Except.ok { pending := [], Err := none, closeErr := none }))
          World.empty).1 = Outcome.returned none
      ∧ (ScrapeInnodbClusterPrimary.Scrape "mysql" "innodb_cluster" (Context.mk false)
          (constDB (Except.ok { pending := [], Err := none, closeErr := none }))
          World.empty).2.ch = World.empty.ch)
    ∧ ((ScrapeInnodbClusterSlave.Scrape "mysql" "innodb_cluster" (Context.mk false)
          (constDB (Except.ok { pending := [], Err := none, closeErr := none }))
          World.empty).1 = Outcome.returned none
      ∧ (ScrapeInnodbClusterSlave.Scrape "mysql" "innodb_cluster" (Context.mk false)
          (constDB (Except.ok { pending := [], Err := none, closeErr := none }))
          World.empty).2.ch = World.empty.ch)
    ∧ ((ScrapePerfReplicationGroupMember.Scrape "mysql" "performance_schema"
          (Context.mk false)
          (constDB (Except.ok { pending := [], Err := none, closeErr := none }))
          World.empty).1 = Outcome.returned none
      ∧ (ScrapePerfReplicationGroupMember.Scrape "mysql" "performance_schema"
          (Context.mk false)
          (constDB (Except.ok { pending := [], Err := none, closeErr := none }))
          World.empty).2.ch = World.empty.ch) :=
  scrape_zero_rows "mysql" "innodb_cluster" "performance_schema" (Context.mk false)
    (constDB (Except.ok { pending := [], Err := none, closeErr := none }))
    (constDB (Except.ok { pending := [], Err := none, closeErr := none }))
    World.empty none none none none none none rfl rfl rfl

/-- C2, as stated, fails: in the membership plugin a first row that scans well
but holds the byte `0xff` in its identifier makes sample construction panic, so
the scan error of the second row is not returned and no sample is sent, where
the claim has that error returned after one sample. -/
theorem member_bad_label_before_failing_scan :
    (ScrapePerfReplicationGroupMember.Scrape "mysql" "performance_schema" (Context.mk false)
        (constDB (Except.ok
          { pending := [Except.ok (MemberRow.mk [0xff] (ascii "h1") (ascii "3306")
                          (ascii "ONLINE") (ascii "PRIMARY")),
                        Except.error "bad"],
            Err := none, closeErr := none }))
        World.empty).1 = Outcome.panicked (Panic.invalidUTF8 [0xff])
    ∧ (ScrapePerfReplicationGroupMember.Scrape "mysql" "performance_schema" (Context.mk false)
        (constDB (Except.ok
          { pending := [Except.ok (MemberRow.mk [0xff] (ascii "h1") (ascii "3306")
                          (ascii "ONLINE") (ascii "PRIMARY")),
                        Except.error "bad"],
            Err := none, closeErr := none }))
        World.empty).2.ch = [] := by
  decide

/-- C2, amended: when the rows before the `k`-th scan well and the scan of the
`k`-th row fails, each of the three plugins returns that scan error, given for
the membership plugin that the strings of the rows before the `k`-th are valid
UTF-8 and, for the two plugins that build samples, that the descriptor carries
no error.  The secondary-count and the membership plugin have then sent exactly
the `k - 1` samples of the rows before the `k`-th, in row order, and nothing
for the `k`-th row or a later one.  What the primary-count plugin sends is left
out. -/
theorem scrape_scan_failure (ns InnodbClusterSchema performanceSchema : String)
    (ctx : Context) (dbP dbS : DB Nat) (dbM : DB MemberRow) (w : World)
    (preP preS : List Nat) (restP restS : List (Except Error Nat))
    (preM : List MemberRow) (restM : List (Except Error MemberRow))
    (errP errS errM : Error) (eP cP eS cS eM cM : Option Error)
    (hdS : (InnodbClusterSlaveDesc ns InnodbClusterSchema).err = none)
    (hdM : (performanceSchemaReplicationGroupMemberDesc ns performanceSchema).err = none)
    (huM : ∀ row ∈ preM, row.validUTF8 = true)
    (hP : dbP.QueryContext ctx innodbClusterPrimaryQuery
      = Except.ok { pending := preP.map Except.ok ++ Except.error errP :: restP,
                    Err := eP, closeErr := cP })
    (hS : dbS.QueryContext ctx innodbClusterSlaveQuery
      = Except.ok { pending := preS.map Except.ok ++ Except.error errS :: restS,
                    Err := eS, closeErr := cS })
    (hM : dbM.QueryContext ctx perfReplicationGroupMemeberQuery
      = Except.ok { pending := preM.map Except.ok ++ Except.error errM :: restM,
                    Err := eM, closeErr := cM }) :
    (ScrapeInnodbClusterPrimary.Scrape ns InnodbClusterSchema ctx dbP w).1
        = Outcome.returned (some errP)
    ∧ ((ScrapeInnodbClusterSlave.Scrape ns InnodbClusterSchema ctx dbS w).1
        = Outcome.returned (some errS)
      ∧ (ScrapeInnodbClusterSlave.Scrape ns InnodbClusterSchema ctx dbS w).2.ch
        = w.ch ++ preS.map (slaveSample ns InnodbClusterSchema)
      ∧ (ScrapeInnodbClusterSlave.Scrape ns InnodbClusterSchema ctx dbS w).2.ch.length
        = w.ch.length + preS.length)
    ∧ ((ScrapePerfReplicationGroupMember.Scrape ns performanceSchema ctx dbM w).1
        = Outcome.returned (some errM)
      ∧ (ScrapePerfReplicationGroupMember.Scrape ns performanceSchema ctx dbM w).2.ch
        = w.ch ++ preM.map (memberSample ns performanceSchema)
      ∧ (ScrapePerfReplicationGroupMember.Scrape ns performanceSchema ctx dbM w).2.ch.length
        = w.ch.length + preM.length) := by
  rw [primary_scrape_ok ns InnodbClusterSchema ctx dbP w _ hP,
    slave_scrape_ok ns InnodbClusterSchema ctx dbS w _ hdS hS,
    member_scrape_ok ns performanceSchema ctx dbM w _ hdM
      (by simpa [scanned_map_ok_append] using huM) hM]
  simp [firstErr_map_ok_append, scanned_map_ok_append]

theorem scrape_scan_failure_witness :
    (ScrapeInnodbClusterSlave.Scrape "mysql" "innodb_cluster" (Context.mk false)
        (constDB (Except.ok { pending := [Except.ok 1, Except.error "bad", Except.ok 2],
                              Err := none, closeErr := none }))
        World.empty).1 = Outcome.returned (some "bad")
    ∧ (ScrapeInnodbClusterSlave.Scrape "mysql" "innodb_cluster" (Context.mk false)
        (constDB (Except.ok { pending := [Except.ok 1, Except.error "bad", Except.ok 2],
                              Err := none, closeErr := none }))
        World.empty).2.ch = [slaveSample "mysql" "innodb_cluster" 1] :=
  have h := scrape_scan_failure "mysql" "innodb_cluster" "performance_schema"
    (Context.mk false)
    (constDB (Except.ok { pending := [Except.error "bad"], Err := none, closeErr := none }))
    (constDB (Except.ok { pending := [Except.ok 1, Except.error "bad", Except.ok 2],
                          Err := none, closeErr := none }))
    (constDB (Except.ok
      { pending := [Except.ok (MemberRow.mk (ascii "m1") (ascii "h1") (ascii "3306")
                      (ascii "ONLINE") (ascii "PRIMARY")),
                    Except.error "bad"],
        Err := none, closeErr := none }))
    World.empty [] [1] [] [Except.ok 2]
    [MemberRow.mk (ascii "m1") (ascii "h1") (ascii "3306") (ascii "ONLINE") (ascii "PRIMARY")]
    [] "bad" "bad" "bad" none none none none none none
    (by decide) (by decide) (by decide) rfl rfl rfl
  ⟨h.2.1.1, h.2.1.2.1⟩

/-- C3, as stated, fails: a single row that scans without error but holds the
byte `0xff` in its identifier makes the membership plugin panic in sample
construction; it sends nothing and does not return success. -/
theorem member_bad_label_panics :
    (ScrapePerfReplicationGroupMember.Scrape "mysql" "performance_schema" (Context.mk false)
        (constDB (Except.ok
          { pending := [Except.ok (MemberRow.mk [0xff] (ascii "h1") (ascii "3306")
                          (ascii "ONLINE") (ascii "PRIMARY"))],
            Err := none, closeErr := none }))
        World.empty).1 = Outcome.panicked (Panic.invalidUTF8 [0xff])
    ∧ (ScrapePerfReplicationGroupMember.Scrape "mysql" "performance_schema" (Context.mk false)
        (constDB (Except.ok
          { pending := [Except.ok (MemberRow.mk [0xff] (ascii "h1") (ascii "3306")
                          (ascii "ONLINE") (ascii "PRIMARY"))],
            Err := none, closeErr := none }))
        World.empty).2.ch = [] := by
  decide

/-- C3, amended: for the membership plugin and a result stream of `n` rows that
all scan well and whose strings are all valid UTF-8, with a descriptor that
carries no error, `Scrape` returns `nil` and sends exactly `n` samples in row
order; the `i`-th is a gauge of value 1 on the members descriptor whose label
values are the five strings of the `i`-th row, unchanged and in column order,
and the descriptor declares the label names `member_id`, `member_host`,
`member_port`, `member_state`, `member_role`. -/
theorem member_scrape_rows (ns performanceSchema : String) (ctx : Context)
    (dbM : DB MemberRow) (w : World) (rowsM : List MemberRow) (eM cM : Option Error)
    (hdM : (performanceSchemaReplicationGroupMemberDesc ns performanceSchema).err = none)
    (huM : ∀ row ∈ rowsM, row.validUTF8 = true)
    (hM : dbM.QueryContext ctx perfReplicationGroupMemeberQuery
      = Except.ok { pending := rowsM.map Except.ok, Err := eM, closeErr := cM }) :
    (ScrapePerfReplicationGroupMember.Scrape ns performanceSchema ctx dbM w).1
      = Outcome.returned none
    ∧ (ScrapePerfReplicationGroupMember.Scrape ns performanceSchema ctx dbM w).2.ch
      = w.ch ++ rowsM.map (fun row =>
          { desc := performanceSchemaReplicationGroupMemberDesc ns performanceSchema
            valueType := ValueType.GaugeValue
            value := 1
            labelValues := [row.memberId, row.memberHost, row.memberPort, row.memberState,
              row.memberRole] })
    ∧ (ScrapePerfReplicationGroupMember.Scrape ns performanceSchema ctx dbM w).2.ch.length
      = w.ch.length + rowsM.length
    ∧ (performanceSchemaReplicationGroupMemberDesc ns performanceSchema).variableLabels
      = ["member_id", "member_host", "member_port", "member_state", "member_role"] := by
  rw [member_scrape_ok ns performanceSchema ctx dbM w _ hdM
    (by simpa [scanned_map_ok] using huM) hM]
  rw [firstErr_map_ok, scanned_map_ok]
  refine ⟨rfl, rfl, ?_, rfl⟩
  simp

theorem member_scrape_rows_witness :
    (ScrapePerfReplicationGroupMember.Scrape "mysql" "performance_schema" (Context.mk false)
      (constDB (Except.ok
        { pending := [Except.ok (MemberRow.mk (ascii "m1") (ascii "h1") (ascii "3306")
                        (ascii "ONLINE") (ascii "PRIMARY")),
                      Except.ok (MemberRow.mk (ascii "m2") (ascii "h2") (ascii "3306")
                        (ascii "ONLINE") (ascii "SECONDARY"))],
          Err := none, closeErr := none }))
      World.empty).2.ch
    = [ { desc := performanceSchemaReplicationGroupMemberDesc "mysql" "performance_schema"
          valueType := ValueType.GaugeValue
          value := 1
          labelValues := [ascii "m1", ascii "h1", ascii "3306", ascii "ONLINE",
            ascii "PRIMARY"] },
        { desc := performanceSchemaReplicationGroupMemberDesc "mysql" "performance_schema"
          valueType := ValueType.GaugeValue
          value := 1
          labelValues := [ascii "m2", ascii "h2", ascii "3306", ascii "ONLINE",
            ascii "SECONDARY"] } ] :=
  (member_scrape_rows "mysql" "performance_schema" (Context.mk false)
    (constDB (Except.ok
      { pending := [Except.ok (MemberRow.mk (ascii "m1") (ascii "h1") (ascii "3306")
                      (ascii "ONLINE") (ascii "PRIMARY")),
                    Except.ok (MemberRow.mk (ascii "m2") (ascii "h2") (ascii "3306")
                      (ascii "ONLINE") (ascii "SECONDARY"))],
        Err := none, closeErr := none }))
    World.empty
    [MemberRow.mk (ascii "m1") (ascii "h1") (ascii "3306") (ascii "ONLINE") (ascii "PRIMARY"),
     MemberRow.mk (ascii "m2") (ascii "h2") (ascii "3306") (ascii "ONLINE")
       (ascii "SECONDARY")]
    none none (by decide) (by decide) rfl).2.1

/-- C4, as stated, fails: a result stream of two rows that both scan well makes
the secondary-count plugin send two samples, not one. -/
theorem slave_two_rows_two_samples :
    (ScrapeInnodbClusterSlave.Scrape "mysql" "innodb_cluster" (Context.mk false)
        (constDB (Except.ok { pending := [Except.ok 1, Except.ok 1],
                              Err := none, closeErr := none }))
        World.empty).1 = Outcome.returned none
    ∧ (ScrapeInnodbClusterSlave.Scrape "mysql" "innodb_cluster" (Context.mk false)
        (constDB (Except.ok { pending := [Except.ok 1, Except.ok 1],
                              Err := none, closeErr := none }))
        World.empty).2.ch.length = 2 := by
  decide

/-- C4, amended: for a result stream of `n` rows that all scan well, both
scalar-aggregate plugins return `nil`, and the secondary-count plugin, with a
descriptor that carries no error, sends exactly `n` samples, one per row in row
order; so exactly one sample when `n = 1`.  What the primary-count plugin sends
is left out. -/
theorem scalar_scrape_rows (ns InnodbClusterSchema : String) (ctx : Context)
    (dbP dbS : DB Nat) (w : World) (countsP countsS : List Nat)
    (eP cP eS cS : Option Error)
    (hdS : (InnodbClusterSlaveDesc ns InnodbClusterSchema).err = none)
    (hP : dbP.QueryContext ctx innodbClusterPrimaryQuery
      = Except.ok { pending := countsP.map Except.ok, Err := eP, closeErr := cP })
    (hS : dbS.QueryContext ctx innodbClusterSlaveQuery
      = Except.ok { pending := countsS.map Except.ok, Err := eS, closeErr := cS }) :
    (ScrapeInnodbClusterPrimary.Scrape ns InnodbClusterSchema ctx dbP w).1
        = Outcome.returned none
    ∧ ((ScrapeInnodbClusterSlave.Scrape ns InnodbClusterSchema ctx dbS w).1
        = Outcome.returned none
      ∧ (ScrapeInnodbClusterSlave.Scrape ns InnodbClusterSchema ctx dbS w).2.ch
        = w.ch ++ countsS.map (slaveSample ns InnodbClusterSchema)
      ∧ (ScrapeInnodbClusterSlave.Scrape ns InnodbClusterSchema ctx dbS w).2.ch.length
        = w.ch.length + countsS.length
      ∧ (countsS.length = 1 →
        (ScrapeInnodbClusterSlave.Scrape ns InnodbClusterSchema ctx dbS w).2.ch.length
          = w.ch.length + 1)) := by
  rw [primary_scrape_ok ns InnodbClusterSchema ctx dbP w _ hP,
    slave_scrape_ok ns InnodbClusterSchema ctx dbS w _ hdS hS]
  rw [firstErr_map_ok, firstErr_map_ok, scanned_map_ok]
  refine ⟨rfl, rfl, rfl, ?_, ?_⟩
  · simp
  · intro h
    simp [h]

theorem scalar_scrape_rows_witness :
    (ScrapeInnodbClusterSlave.Scrape "mysql" "innodb_cluster" (Context.mk false)
        (constDB (Except.ok { pending := [Except.ok 3, Except.ok 4, Except.ok 5],
                              Err := none, closeErr := none }))
        World.empty).2.ch
      = [slaveSample "mysql" "innodb_cluster" 3, slaveSample "mysql" "innodb_cluster" 4,
         slaveSample "mysql" "innodb_cluster" 5] :=
  (scalar_scrape_rows "mysql" "innodb_cluster" (Context.mk false)
    (constDB (Except.ok { pending := [Except.ok 3], Err := none, closeErr := none }))
    (constDB (Except.ok { pending := [Except.ok 3, Except.ok 4, Except.ok 5],
                          Err := none, closeErr := none }))
    World.empty [3] [3, 4, 5] none none none none (by decide) rfl rfl).2.2.1

/-- C5, as stated, fails: when the stream stops because it failed and releasing
the cursor fails as well, each of the three plugins still returns `nil`. -/
theorem scrape_drops_stream_and_close_error :
    (ScrapeInnodbClusterPrimary.Scrape "mysql" "innodb_cluster" (Context.mk false)
        (constDB (Except.ok { pending := [Except.ok 1], Err := some "connection lost",
                              closeErr := some "close failed" }))
        World.empty).1 = Outcome.returned none
    ∧ (ScrapeInnodbClusterSlave.Scrape "mysql" "innodb_cluster" (Context.mk false)
        (constDB (Except.ok { pending := [Except.ok 1], Err := some "connection lost",
                              closeErr := some "close failed" }))
        World.empty).1 = Outcome.returned none
    ∧ (ScrapePerfReplicationGroupMember.Scrape "mysql" "performance_schema"
        (Context.mk false)
        (constDB (Except.ok { pending := [], Err := some "connection lost",
                              closeErr := some "close failed" }))
        World.empty).1 = Outcome.returned none := by
  decide

/-- C5, amended: for every plugin and every answer of the handle, `Scrape`
returns the error of the query call when that call fails, otherwise the error
of the first row scan that fails, and otherwise `nil`; the error state of the
stream and the result of releasing the cursor do not enter the returned value.
For the two plugins that build samples this is given that sample construction
does not panic first: the descriptor carries no error and, for the membership
plugin, the strings of the rows scanned before the first failing scan are valid
UTF-8. -/
theorem scrape_returns_first_query_or_scan_error
    (ns InnodbClusterSchema performanceSchema : String) (ctx : Context)
    (dbP dbS : DB Nat) (dbM : DB MemberRow) (w : World)
    (hdS : (InnodbClusterSlaveDesc ns InnodbClusterSchema).err = none)
    (hdM : (performanceSchemaReplicationGroupMemberDesc ns performanceSchema).err = none)
    (huM : ∀ rows, dbM.QueryContext ctx perfReplicationGroupMemeberQuery = Except.ok rows →
      ∀ row ∈ scanned rows.pending, row.validUTF8 = true) :
    (ScrapeInnodbClusterPrimary.Scrape ns InnodbClusterSchema ctx dbP w).1
      = Outcome.returned
          (match dbP.QueryContext ctx innodbClusterPrimaryQuery with
            | Except.error err => some err
            | Except.ok rows => firstErr rows.pending)
    ∧ (ScrapeInnodbClusterSlave.Scrape ns InnodbClusterSchema ctx dbS w).1
      = Outcome.returned
          (match dbS.QueryContext ctx innodbClusterSlaveQuery with
            | Except.error err => some err
            | Except.ok rows => firstErr rows.pending)
    ∧ (ScrapePerfReplicationGroupMember.Scrape ns performanceSchema ctx dbM w).1
      = Outcome.returned
          (match dbM.QueryContext ctx perfReplicationGroupMemeberQuery with
            | Except.error err => some err
            | Except.ok rows => firstErr rows.pending) := by
  refine ⟨?_, ?_, ?_⟩
  · cases hq : dbP.QueryContext ctx innodbClusterPrimaryQuery with
    | error err => rw [primary_scrape_error ns InnodbClusterSchema ctx dbP w err hq]
    | ok rows => rw [primary_scrape_ok ns InnodbClusterSchema ctx dbP w rows hq]
  · cases hq : dbS.QueryContext ctx innodbClusterSlaveQuery with
    | error err => rw [slave_scrape_error ns InnodbClusterSchema ctx dbS w err hq]
    | ok rows => rw [slave_scrape_ok ns InnodbClusterSchema ctx dbS w rows hdS hq]
  · cases hq : dbM.QueryContext ctx perfReplicationGroupMemeberQuery with
    | error err => rw [member_scrape_error ns performanceSchema ctx dbM w err hq]
    | ok rows =>
      rw [member_scrape_ok ns performanceSchema ctx dbM w rows hdM (huM rows hq) hq]

theorem scrape_returns_first_query_or_scan_error_witness :
    (ScrapeInnodbClusterPrimary.Scrape "mysql" "innodb_cluster" (Context.mk false)
        (constDB (Except.error "connection refused")) World.empty).1
      = Outcome.returned (some "connection refused")
    ∧ (ScrapeInnodbClusterSlave.Scrape "mysql" "innodb_cluster" (Context.mk false)
        (constDB (Except.ok { pending := [Except.ok 2, Except.error "bad", Except.error "worse"],
                              Err := some "connection lost", closeErr := some "close failed" }))
        World.empty).1
      = Outcome.returned (some "bad")
    ∧ (ScrapePerfReplicationGroupMember.Scrape "mysql" "performance_schema"
        (Context.mk false)
        (constDB (Except.ok
          { pending := [Except.ok (MemberRow.mk (ascii "m1") (ascii "h1") (ascii "3306")
                          (ascii "ONLINE") (ascii "PRIMARY"))],
            Err := some "connection lost", closeErr := none }))
        World.empty).1
      = Outcome.returned none :=
  scrape_returns_first_query_or_scan_error "mysql" "innodb_cluster" "performance_schema"
    (Context.mk false)
    (constDB (Except.error "connection refused"))
    (constDB (Except.ok { pending := [Except.ok 2, Except.error "bad", Except.error "worse"],
                          Err := some "connection lost", closeErr := some "close failed" }))
    (constDB (Except.ok
      { pending := [Except.ok (MemberRow.mk (ascii "m1") (ascii "h1") (ascii "3306")
                      (ascii "ONLINE") (ascii "PRIMARY"))],
        Err := some "connection lost", closeErr := none }))
    World.empty (by decide) (by decide)
    (fun rows hq row hrow => by
      simp only [constDB, Except.ok.injEq] at hq
      subst hq
      simp only [scanned, List.mem_singleton] at hrow
      subst hrow
      decide)

/-- C6: for every plugin, when the query call fails, `Scrape` returns exactly the
error of that call, sends nothing on the channel, and has issued its query
exactly once. -/
theorem scrape_query_failure (ns InnodbClusterSchema performanceSchema : String)
    (ctx : Context) (db : DB Nat) (dbM : DB MemberRow) (w : World) (err : Error)
    (hP : db.QueryContext ctx innodbClusterPrimaryQuery = Except.error err)
    (hS : db.QueryContext ctx innodbClusterSlaveQuery = Except.error err)
    (hM : dbM.QueryContext ctx perfReplicationGroupMemeberQuery = Except.error err) :
    ((ScrapeInnodbClusterPrimary.Scrape ns InnodbClusterSchema ctx db w).1
        = Outcome.returned (some err)
      ∧ (ScrapeInnodbClusterPrimary.Scrape ns InnodbClusterSchema ctx db w).2.ch = w.ch
      ∧ (ScrapeInnodbClusterPrimary.Scrape ns InnodbClusterSchema ctx db w).2.queries
        = w.queries ++ [innodbClusterPrimaryQuery])
    ∧ ((ScrapeInnodbClusterSlave.Scrape ns InnodbClusterSchema ctx db w).1
        = Outcome.returned (some err)
      ∧ (ScrapeInnodbClusterSlave.Scrape ns InnodbClusterSchema ctx db w).2.ch = w.ch
      ∧ (ScrapeInnodbClusterSlave.Scrape ns InnodbClusterSchema ctx db w).2.queries
        = w.queries ++ [innodbClusterSlaveQuery])
    ∧ ((ScrapePerfReplicationGroupMember.Scrape ns performanceSchema ctx dbM w).1
        = Outcome.returned (some err)
      ∧ (ScrapePerfReplicationGroupMember.Scrape ns performanceSchema ctx dbM w).2.ch = w.ch
      ∧ (ScrapePerfReplicationGroupMember.Scrape ns performanceSchema ctx dbM w).2.queries
        = w.queries ++ [perfReplicationGroupMemeberQuery]) := by
  rw [primary_scrape_error ns InnodbClusterSchema ctx db w err hP,
    slave_scrape_error ns InnodbClusterSchema ctx db w err hS,
    member_scrape_error ns performanceSchema ctx dbM w err hM]
  exact ⟨⟨rfl, rfl, rfl⟩, ⟨rfl, rfl, rfl⟩, ⟨rfl, rfl, rfl⟩⟩

theorem scrape_query_failure_witness :
    (ScrapeInnodbClusterPrimary.Scrape "mysql" "innodb_cluster" (Context.mk true)
        (constDB (Except.error "context canceled")) World.empty).1
      = Outcome.returned (some "context canceled")
    ∧ (ScrapeInnodbClusterPrimary.Scrape "mysql" "innodb_cluster" (Context.mk true)
        (constDB (Except.error "context canceled")) World.empty).2.ch = []
    ∧ (ScrapeInnodbClusterPrimary.Scrape "mysql" "innodb_cluster" (Context.mk true)
        (constDB (Except.error "context canceled")) World.empty).2.queries
      = [innodbClusterPrimaryQuery] :=
  (scrape_query_failure "mysql" "innodb_cluster" "performance_schema" (Context.mk true)
    (constDB (Except.error "context canceled")) (constDB (Except.error "context canceled"))
    World.empty "context canceled" rfl rfl rfl).1

/-- C7, as stated, fails: when the query call fails, no plugin calls `Close`
at all during the invocation. -/
theorem scrape_query_failure_no_close :
    (ScrapeInnodbClusterPrimary.Scrape "mysql" "innodb_cluster" (Context.mk false)
        (constDB (Except.error "connection refused")) World.empty).2.closes = 0
    ∧ (ScrapeInnodbClusterSlave.Scrape "mysql" "innodb_cluster" (Context.mk false)
        (constDB (Except.error "connection refused")) World.empty).2.closes = 0
    ∧ (ScrapePerfReplicationGroupMember.Scrape "mysql" "performance_schema"
        (Context.mk false)
        (constDB (Except.error "connection refused")) World.empty).2.closes = 0 :=
  ⟨rfl, rfl, rfl⟩

/-- C7, amended: for every plugin and every invocation in which the query call
succeeds, `Close` is called exactly once on the cursor, whether the rows are
consumed to the end or a row scan fails; when the query call fails no cursor
was obtained and `Close` is not called. -/
theorem scrape_close_count (ns InnodbClusterSchema performanceSchema : String)
    (ctx : Context) (db : DB Nat) (dbM : DB MemberRow) (w : World) :
    (ScrapeInnodbClusterPrimary.Scrape ns InnodbClusterSchema ctx db w).2.closes
      = (match db.QueryContext ctx innodbClusterPrimaryQuery with
          | Except.error _ => w.closes
          | Except.ok _ => w.closes + 1)
    ∧ (ScrapeInnodbClusterSlave.Scrape ns InnodbClusterSchema ctx db w).2.closes
      = (match db.QueryContext ctx innodbClusterSlaveQuery with
          | Except.error _ => w.closes
          | Except.ok _ => w.closes + 1)
    ∧ (ScrapePerfReplicationGroupMember.Scrape ns performanceSchema ctx dbM w).2.closes
      = (match dbM.QueryContext ctx perfReplicationGroupMemeberQuery with
          | Except.error _ => w.closes
          | Except.ok _ => w.closes + 1) := by
  refine ⟨?_, ?_, ?_⟩
  · cases hq : db.QueryContext ctx innodbClusterPrimaryQuery with
    | error err => rw [primary_scrape_error ns InnodbClusterSchema ctx db w err hq]
    | ok rows => rw [primary_scrape_ok ns InnodbClusterSchema ctx db w rows hq]
  · cases hq : db.QueryContext ctx innodbClusterSlaveQuery with
    | error err => rw [slave_scrape_error ns InnodbClusterSchema ctx db w err hq]
    | ok rows =>
      simp [ScrapeInnodbClusterSlave.Scrape, hq, deferClose, (forRows_frame _ _ _).2]
  · cases hq : dbM.QueryContext ctx perfReplicationGroupMemeberQuery with
    | error err => rw [member_scrape_error ns performanceSchema ctx dbM w err hq]
    | ok rows =>
      simp [ScrapePerfReplicationGroupMember.Scrape, hq, deferClose,
        (forRows_frame _ _ _).2]

/-- C8: evaluation at the failing input.  On one row scanning to the count 1 the
secondary-count plugin sends one gauge of value 1 without label values, while
the primary-count plugin, whose send statement is malformed, returns `nil`
with nothing sent, where the claim has one counter of value 1. -/
theorem primary_one_row_sends_nothing :
    (ScrapeInnodbClusterPrimary.Scrape "mysql" "innodb_cluster" (Context.mk false)
        (constDB (Except.ok { pending := [Except.ok 1], Err := none, closeErr := none }))
        World.empty).1 = Outcome.returned none
    ∧ (ScrapeInnodbClusterPrimary.Scrape "mysql" "innodb_cluster" (Context.mk false)
        (constDB (Except.ok { pending := [Except.ok 1], Err := none, closeErr := none }))
        World.empty).2.ch = []
    ∧ (ScrapeInnodbClusterSlave.Scrape "mysql" "innodb_cluster" (Context.mk false)
        (constDB (Except.ok { pending := [Except.ok 1], Err := none, closeErr := none }))
        World.empty).2.ch
      = [{ desc := InnodbClusterSlaveDesc "mysql" "innodb_cluster"
           valueType := ValueType.GaugeValue
           value := 1
           labelValues := [] }] := by
  decide

/-- C9: the names of the three plugins are pairwise distinct, whatever the
values of the constants `InnodbClusterSchema` and `performanceSchema`. -/
theorem names_pairwise_distinct (InnodbClusterSchema performanceSchema : String) :
    ScrapeInnodbClusterPrimary.Name InnodbClusterSchema
      ≠ ScrapeInnodbClusterSlave.Name InnodbClusterSchema
    ∧ ScrapeInnodbClusterPrimary.Name InnodbClusterSchema
      ≠ ScrapePerfReplicationGroupMember.Name performanceSchema
    ∧ ScrapeInnodbClusterSlave.Name InnodbClusterSchema
      ≠ ScrapePerfReplicationGroupMember.Name performanceSchema :=
  ⟨append_ne_of_last_ne InnodbClusterSchema InnodbClusterSchema
      ".primar".data ".slav".data 'y' 'e' (by decide),
    append_ne_of_last_ne InnodbClusterSchema performanceSchema
      ".primar".data ".replication_group_membe".data 'y' 'r' (by decide),
    append_ne_of_last_ne InnodbClusterSchema performanceSchema
      ".slav".data ".replication_group_membe".data 'e' 'r' (by decide)⟩

/-- C10: for every plugin and every answer of the handle, the descriptors
declare 0, 0 and 5 label names, each call of `MustNewConstMetric` written in
the sources passes that many label values and so does not take the panicking
branch of an arity mismatch, no `Scrape` ends in that panic, and every sample a
`Scrape` puts on the channel has as many label values as its descriptor
declares label names. -/
theorem scrape_label_arity (ns InnodbClusterSchema performanceSchema : String)
    (ctx : Context) (db : DB Nat) (dbM : DB MemberRow) (w : World) :
    ((InnodbClusterPrimaryDesc ns InnodbClusterSchema).variableLabels.length = 0
      ∧ (InnodbClusterSlaveDesc ns InnodbClusterSchema).variableLabels.length = 0
      ∧ (performanceSchemaReplicationGroupMemberDesc ns
          performanceSchema).variableLabels.length = 5)
    ∧ ((∀ primaryCount, MustNewConstMetric (InnodbClusterPrimaryDesc ns InnodbClusterSchema)
          ValueType.CounterValue (float64 primaryCount) []
          ≠ Except.error Panic.inconsistentCardinality)
      ∧ (∀ slaveCount, MustNewConstMetric (InnodbClusterSlaveDesc ns InnodbClusterSchema)
          ValueType.GaugeValue (float64 slaveCount) []
          ≠ Except.error Panic.inconsistentCardinality)
      ∧ (∀ row : MemberRow,
          MustNewConstMetric (performanceSchemaReplicationGroupMemberDesc ns performanceSchema)
            ValueType.GaugeValue 1
            [row.memberId, row.memberHost, row.memberPort, row.memberState, row.memberRole]
          ≠ Except.error Panic.inconsistentCardinality))
    ∧ ((∀ p, (ScrapeInnodbClusterPrimary.Scrape ns InnodbClusterSchema ctx db w).1
        ≠ Outcome.panicked p)
      ∧ ∀ m ∈ (ScrapeInnodbClusterPrimary.Scrape ns InnodbClusterSchema ctx db w).2.ch,
        m ∈ w.ch ∨ (m.desc = InnodbClusterPrimaryDesc ns InnodbClusterSchema
          ∧ m.labelValues.length = m.desc.variableLabels.length))
    ∧ ((ScrapeInnodbClusterSlave.Scrape ns InnodbClusterSchema ctx db w).1
        ≠ Outcome.panicked Panic.inconsistentCardinality
      ∧ ∀ m ∈ (ScrapeInnodbClusterSlave.Scrape ns InnodbClusterSchema ctx db w).2.ch,
        m ∈ w.ch ∨ (m.desc = InnodbClusterSlaveDesc ns InnodbClusterSchema
          ∧ m.labelValues.length = m.desc.variableLabels.length))
    ∧ ((ScrapePerfReplicationGroupMember.Scrape ns performanceSchema ctx dbM w).1
        ≠ Outcome.panicked Panic.inconsistentCardinality
      ∧ ∀ m ∈ (ScrapePerfReplicationGroupMember.Scrape ns performanceSchema ctx dbM w).2.ch,
        m ∈ w.ch ∨ (m.desc = performanceSchemaReplicationGroupMemberDesc ns performanceSchema
          ∧ m.labelValues.length = m.desc.variableLabels.length)) := by
  refine ⟨⟨rfl, rfl, rfl⟩,
    ⟨fun _ => MustNewConstMetric_cardinality _ _ _ _ rfl,
      fun _ => MustNewConstMetric_cardinality _ _ _ _ rfl,
      fun _ => MustNewConstMetric_cardinality _ _ _ _ rfl⟩, ?_, ?_, ?_⟩
  · cases hq : db.QueryContext ctx innodbClusterPrimaryQuery with
    | error err =>
      rw [primary_scrape_error ns InnodbClusterSchema ctx db w err hq]
      exact ⟨by simp, fun m hm => Or.inl hm⟩
    | ok rows =>
      rw [primary_scrape_ok ns InnodbClusterSchema ctx db w rows hq]
      exact ⟨by simp, fun m hm => Or.inl hm⟩
  · cases hq : db.QueryContext ctx innodbClusterSlaveQuery with
    | error err =>
      rw [slave_scrape_error ns InnodbClusterSchema ctx db w err hq]
      exact ⟨by simp, fun m hm => Or.inl hm⟩
    | ok rows =>
      simp only [ScrapeInnodbClusterSlave.Scrape, hq, deferClose]
      refine ⟨fun h => ?_, fun m hm => ?_⟩
      · obtain ⟨v, hv⟩ := forRows_panic _ _ _ _ h
        exact MustNewConstMetric_cardinality _ _ _ _ rfl hv
      · rcases forRows_ch _ _ _ m hm with h | ⟨v, hv⟩
        · exact Or.inl h
        · obtain ⟨h1, h2, h3⟩ := MustNewConstMetric_ok_inv _ _ _ _ _ hv
          exact Or.inr ⟨h1, by rw [h1, h2, h3]⟩
  · cases hq : dbM.QueryContext ctx perfReplicationGroupMemeberQuery with
    | error err =>
      rw [member_scrape_error ns performanceSchema ctx dbM w err hq]
      exact ⟨by simp, fun m hm => Or.inl hm⟩
    | ok rows =>
      simp only [ScrapePerfReplicationGroupMember.Scrape, hq, deferClose]
      refine ⟨fun h => ?_, fun m hm => ?_⟩
      · obtain ⟨v, hv⟩ := forRows_panic _ _ _ _ h
        exact MustNewConstMetric_cardinality _ _ _ _ rfl hv
      · rcases forRows_ch _ _ _ m hm with h | ⟨v, hv⟩
        · exact Or.inl h
        · obtain ⟨h1, h2, h3⟩ := MustNewConstMetric_ok_inv _ _ _ _ _ hv
          exact Or.inr ⟨h1, by rw [h1, h2, h3]⟩

end collector
